import Mathlib

/-
Verification of the wut-server core (src/main.rs): a TLS HTTP server that
echoes the remote peer IP, counts requests, reports telemetry rates, and
shuts down gracefully on SIGINT/SIGTERM.

The definitions below are a shallow embedding of the Rust source.  Machine
integers are modelled as Nat (all values in play are small and unsigned),
Duration values as Nat nanoseconds (Duration.as_secs is division by 10^9),
fallible operations as Except/Option, and the concurrent tasks as explicit
state passing over event lists.
-/

/-! ## Characters and digit printing

Models of Rust's decimal and lower-hex integer formatting, used by the
Display implementations for IP addresses and by format strings such as
the one in parse_addr that appends the default port. -/

def decDigitChar (d : Nat) : Char := Char.ofNat (48 + d)

def hexDigitChar (d : Nat) : Char := Char.ofNat (if d < 10 then 48 + d else 87 + d)

/-- Decimal digits of n, most significant first, with fuel for structural
recursion.  With fuel at least n + 1 this is exactly Rust's decimal Display. -/
def decCharsAux : Nat → Nat → List Char
  | 0, _ => []
  | f + 1, n => if n < 10 then [decDigitChar n] else decCharsAux f (n / 10) ++ [decDigitChar (n % 10)]

def decChars (n : Nat) : List Char := decCharsAux (n + 1) n

/-- Lower-case hexadecimal digits of n, most significant first (Rust LowerHex). -/
def hexCharsAux : Nat → Nat → List Char
  | 0, _ => []
  | f + 1, n => if n < 16 then [hexDigitChar n] else hexCharsAux f (n / 16) ++ [hexDigitChar (n % 16)]

def hexChars (n : Nat) : List Char := hexCharsAux (n + 1) n

/-- A character that is neither a space, tab, line feed nor carriage return. -/
def charOk (c : Char) : Bool :=
  c.toNat != 32 && c.toNat != 9 && c.toNat != 10 && c.toNat != 13

def charsOk (l : List Char) : Bool := l.all charOk

theorem charsOk_append (l r : List Char) : charsOk (l ++ r) = (charsOk l && charsOk r) := by
  simp [charsOk, List.all_append]

theorem charsOk_cons (c : Char) (l : List Char) : charsOk (c :: l) = (charOk c && charsOk l) := by
  simp [charsOk]

theorem decCharsAux_ok (f : Nat) : ∀ n : Nat, charsOk (decCharsAux f n) = true := by
  induction f with
  | zero => intro n; rfl
  | succ f ih =>
    intro n
    by_cases h : n < 10
    · simp only [decCharsAux, if_pos h]
      have : charOk (decDigitChar n) = true := by interval_cases n <;> decide
      simp [charsOk, this]
    · have h10 : n % 10 < 10 := Nat.mod_lt _ (by norm_num)
      have hd : charOk (decDigitChar (n % 10)) = true := by
        generalize hm : n % 10 = m at h10 ⊢
        interval_cases m <;> decide
      simp only [decCharsAux, if_neg h, charsOk_append, ih (n / 10), Bool.true_and]
      simp [charsOk, hd]

theorem decChars_ok (n : Nat) : charsOk (decChars n) = true := decCharsAux_ok _ _

theorem hexCharsAux_ok (f : Nat) : ∀ n : Nat, charsOk (hexCharsAux f n) = true := by
  induction f with
  | zero => intro n; rfl
  | succ f ih =>
    intro n
    by_cases h : n < 16
    · simp only [hexCharsAux, if_pos h]
      have : charOk (hexDigitChar n) = true := by interval_cases n <;> decide
      simp [charsOk, this]
    · have h16 : n % 16 < 16 := Nat.mod_lt _ (by norm_num)
      have hd : charOk (hexDigitChar (n % 16)) = true := by
        generalize hm : n % 16 = m at h16 ⊢
        interval_cases m <;> decide
      simp only [hexCharsAux, if_neg h, charsOk_append, ih (n / 16), Bool.true_and]
      simp [charsOk, hd]

theorem hexChars_ok (n : Nat) : charsOk (hexChars n) = true := hexCharsAux_ok _ _

/-! ## IP addresses and socket addresses

Model of std::net::IpAddr and std::net::SocketAddr.  A v6 address is
its eight 16-bit groups; a socket address carries the IP, the port and
(for v6) the scope id. -/

inductive IpAddr where
  | v4 (a b c d : Nat)
  | v6 (g0 g1 g2 g3 g4 g5 g6 g7 : Nat)
deriving DecidableEq, Repr

structure SockAddr where
  ip : IpAddr
  port : Nat
  scopeId : Nat
deriving DecidableEq, Repr

/-! ### Display (model of the std Display impls for Ipv4Addr / Ipv6Addr) -/

def v4Chars (a b c d : Nat) : List Char :=
  decChars a ++ '.' :: decChars b ++ '.' :: decChars c ++ '.' :: decChars d

/-- Joins hex-group strings with a colon separator (fmt_subslice in std). -/
def joinColonChars : List (List Char) → List Char
  | [] => []
  | [x] => x
  | x :: y :: xs => x ++ ':' :: joinColonChars (y :: xs)

/-- First longest run of zero groups: (start, length).  Mirrors the span
search of the std Ipv6Addr Display implementation (strictly longer runs
win, so the first longest run is chosen). -/
def longestZeroRun (segs : List Nat) : Nat × Nat :=
  let step := fun (st : Nat × Nat × Nat × Nat × Nat) (seg : Nat) =>
    let (i, cs, cl, bs, bl) := st
    if seg = 0 then
      let cs2 := if cl = 0 then i else cs
      let cl2 := cl + 1
      if bl < cl2 then (i + 1, cs2, cl2, cs2, cl2) else (i + 1, cs2, cl2, bs, bl)
    else (i + 1, 0, 0, bs, bl)
  let r := segs.foldl step (0, 0, 0, 0, 0)
  (r.2.2.2.1, r.2.2.2.2)

/-- Model of the Display implementation for std::net::IpAddr: dotted quad
for v4; for v6 the special cases for the unspecified address, loopback and
v4-mapped addresses, then zero-run compression. -/
def ipChars : IpAddr → List Char
  | .v4 a b c d => v4Chars a b c d
  | .v6 a b c d e f g h =>
    if [a, b, c, d, e, f, g, h] = [0, 0, 0, 0, 0, 0, 0, 0] then [':', ':']
    else if [a, b, c, d, e, f, g, h] = [0, 0, 0, 0, 0, 0, 0, 1] then [':', ':', '1']
    else if [a, b, c, d, e, f] = [0, 0, 0, 0, 0, 65535] then
      [':', ':', 'f', 'f', 'f', 'f', ':'] ++ v4Chars (g / 256) (g % 256) (h / 256) (h % 256)
    else
      let segs := [a, b, c, d, e, f, g, h]
      let zr := longestZeroRun segs
      if 1 < zr.2 then
        joinColonChars ((segs.take zr.1).map hexChars) ++ ':' :: ':' ::
          joinColonChars ((segs.drop (zr.1 + zr.2)).map hexChars)
      else joinColonChars (segs.map hexChars)

theorem v4Chars_ok (a b c d : Nat) : charsOk (v4Chars a b c d) = true := by
  simp only [v4Chars, charsOk_append, charsOk_cons, decChars_ok,
    Bool.true_and, Bool.and_true]
  all_goals decide

theorem joinColonChars_ok : ∀ ls : List (List Char),
    (∀ l ∈ ls, charsOk l = true) → charsOk (joinColonChars ls) = true := by
  intro ls
  induction ls with
  | nil => intro _; rfl
  | cons x xs ih =>
    intro h
    cases xs with
    | nil => exact h x (by simp)
    | cons y ys =>
      have hx := h x (by simp)
      have hrest := ih (fun l hl => h l (List.mem_cons_of_mem _ hl))
      simp only [joinColonChars, charsOk_append, charsOk_cons, hx, hrest,
        Bool.true_and, Bool.and_true]
      all_goals decide

theorem map_hexChars_ok (segs : List Nat) : ∀ l ∈ segs.map hexChars, charsOk l = true := by
  intro l hl
  rcases List.mem_map.mp hl with ⟨n, _, rfl⟩
  exact hexChars_ok n

theorem ipChars_ok (ip : IpAddr) : charsOk (ipChars ip) = true := by
  cases ip with
  | v4 a b c d => exact v4Chars_ok a b c d
  | v6 a b c d e f g h =>
    simp only [ipChars]
    split
    · decide
    · split
      · decide
      · split
        · simp only [charsOk_append, v4Chars_ok, Bool.and_true]
          all_goals decide
        · split
          · have h1 := joinColonChars_ok (([a,b,c,d,e,f,g,h].take (longestZeroRun [a,b,c,d,e,f,g,h]).1).map hexChars)
              (map_hexChars_ok _)
            have h2 := joinColonChars_ok (([a,b,c,d,e,f,g,h].drop ((longestZeroRun [a,b,c,d,e,f,g,h]).1 + (longestZeroRun [a,b,c,d,e,f,g,h]).2)).map hexChars)
              (map_hexChars_ok _)
            simp only [charsOk_append, charsOk_cons, h1, h2, Bool.true_and, Bool.and_true]
            all_goals decide
          · exact joinColonChars_ok _ (map_hexChars_ok _)

/-! ## The std socket-address parser

Model of core::net::parser as used by str::parse::<SocketAddr>() in
parse_addr.  Each reader takes the remaining characters and returns the
parsed value plus the rest on success; failure leaves the caller with its
original input (read_atomically).  read_number collects every consecutive
digit of the radix; the checked u8/u16/u32 arithmetic of the original is
equivalent to the final bound check because the accumulated value only
grows with each digit. -/

/-- char::to_digit for the radixes used here (10 and 16). -/
def digitValRx (radix : Nat) (c : Char) : Option Nat :=
  let raw :=
    if 48 ≤ c.toNat ∧ c.toNat ≤ 57 then some (c.toNat - 48)
    else if 97 ≤ c.toNat ∧ c.toNat ≤ 122 then some (c.toNat - 87)
    else if 65 ≤ c.toNat ∧ c.toNat ≤ 90 then some (c.toNat - 55)
    else none
  match raw with
  | some d => if d < radix then some d else none
  | none => none

/-- Parser::read_number: radix, optional digit limit, whether a leading zero
may be followed by further digits, and the numeric bound of the target
integer type (255 for u8, 65535 for u16, 4294967295 for u32). -/
def readNumber (radix : Nat) (maxDigits : Option Nat) (allowZeroPre : Bool) (bound : Nat)
    (cs : List Char) : Option (Nat × List Char) :=
  let ds := cs.takeWhile (fun c => (digitValRx radix c).isSome)
  let rest := cs.dropWhile (fun c => (digitValRx radix c).isSome)
  if ds.length = 0 then none
  else if (match maxDigits with | some m => decide (m < ds.length) | none => false) then none
  else if !allowZeroPre && (match cs.head? with | some c => c == '0' | none => false) && 1 < ds.length then none
  else
    let v := ds.foldl (fun a c => a * radix + ((digitValRx radix c).getD 0)) 0
    if v ≤ bound then some (v, rest) else none

/-- Parser::read_separator: at index 0 no separator is consumed, otherwise
the given character must come first; atomic. -/
def readSep (sep : Char) (i : Nat) (inner : List Char → Option (α × List Char))
    (cs : List Char) : Option (α × List Char) :=
  if i = 0 then inner cs
  else
    match cs with
    | c :: rest => if c = sep then inner rest else none
    | [] => none

/-- Parser::read_ipv4_addr: four dot-separated decimal octets, at most three
digits each, no leading zeros. -/
def readIpv4 (cs : List Char) : Option ((Nat × Nat × Nat × Nat) × List Char) := do
  let (a, cs1) ← readNumber 10 (some 3) false 255 cs
  match cs1 with
  | '.' :: cs2 => do
    let (b, cs3) ← readNumber 10 (some 3) false 255 cs2
    match cs3 with
    | '.' :: cs4 => do
      let (c, cs5) ← readNumber 10 (some 3) false 255 cs4
      match cs5 with
      | '.' :: cs6 => do
        let (d, cs7) ← readNumber 10 (some 3) false 255 cs6
        pure ((a, b, c, d), cs7)
      | _ => none
    | _ => none
  | _ => none

/-- read_groups of Parser::read_ipv6_addr: reads up to rem colon-separated
16-bit hex groups starting at group index i; a trailing embedded IPv4
address may replace the final two or more remaining groups.  Returns the
groups read, the rest of the input, and whether the IPv4 form was used. -/
def readGroupsGo : Nat → Nat → List Char → List Nat × List Char × Bool
  | 0, _, cs => ([], cs, false)
  | rem + 1, i, cs =>
    match (if 1 ≤ rem then readSep ':' i readIpv4 cs else none) with
    | some ((a, b, c, d), rest) => ([a * 256 + b, c * 256 + d], rest, true)
    | none =>
      match readSep ':' i (readNumber 16 (some 4) true 65535) cs with
      | some (g, rest) =>
        let r := readGroupsGo rem (i + 1) rest
        (g :: r.1, r.2.1, r.2.2)
      | none => ([], cs, false)

/-- Builds the v6 address from exactly eight groups. -/
def mkIp6 (l : List Nat) : IpAddr :=
  match l with
  | [a, b, c, d, e, f, g, h] => .v6 a b c d e f g h
  | _ => .v6 0 0 0 0 0 0 0 0

/-- Parser::read_ipv6_addr: a head group sequence, then if fewer than eight
groups were read (and the head did not end in an embedded IPv4 address) a
double colon followed by a tail sequence, zero-filled in the middle. -/
def readIpv6 (cs : List Char) : Option (IpAddr × List Char) :=
  let h := readGroupsGo 8 0 cs
  if h.1.length = 8 then some (mkIp6 h.1, h.2.1)
  else if h.2.2 then none
  else
    match h.2.1 with
    | ':' :: ':' :: cs2 =>
      let limit := 8 - (h.1.length + 1)
      let t := readGroupsGo limit 0 cs2
      some (mkIp6 (h.1 ++ List.replicate (8 - h.1.length - t.1.length) 0 ++ t.1), t.2.1)
    | _ => none

/-- Parser::read_port: a colon then a decimal u16, leading zeros allowed. -/
def readPort (cs : List Char) : Option (Nat × List Char) :=
  match cs with
  | ':' :: rest => readNumber 10 none true 65535 rest
  | _ => none

/-- Parser::read_scope_id: a percent sign then a decimal u32. -/
def readScopeId (cs : List Char) : Option (Nat × List Char) :=
  match cs with
  | '%' :: rest => readNumber 10 none true 4294967295 rest
  | _ => none

def readSocketAddrV4 (cs : List Char) : Option (SockAddr × List Char) := do
  let (q, cs1) ← readIpv4 cs
  let (p, cs2) ← readPort cs1
  pure ({ ip := .v4 q.1 q.2.1 q.2.2.1 q.2.2.2, port := p, scopeId := 0 }, cs2)

def readSocketAddrV6 (cs : List Char) : Option (SockAddr × List Char) :=
  match cs with
  | '[' :: cs1 => do
    let (ip, cs2) ← readIpv6 cs1
    let sc := match readScopeId cs2 with
      | some (s, r) => (s, r)
      | none => (0, cs2)
    match sc.2 with
    | ']' :: cs4 => do
      let (p, cs5) ← readPort cs4
      pure ({ ip := ip, port := p, scopeId := sc.1 }, cs5)
    | _ => none
  | _ => none

/-- FromStr for SocketAddr: IPv4 form first, then the bracketed IPv6 form,
and the whole input must be consumed. -/
def parseSocketAddrChars (cs : List Char) : Option SockAddr :=
  match (readSocketAddrV4 cs).orElse (fun _ => readSocketAddrV6 cs) with
  | some (a, []) => some a
  | _ => none

example : parseSocketAddrChars "127.0.0.1:11313".toList =
    some { ip := .v4 127 0 0 1, port := 11313, scopeId := 0 } := by decide

example : parseSocketAddrChars "[::1]:11313".toList =
    some { ip := .v6 0 0 0 0 0 0 0 1, port := 11313, scopeId := 0 } := by decide

example : parseSocketAddrChars "1.2.3.4:".toList = none := by decide

example : parseSocketAddrChars "[1:2:3]:80".toList = none := by decide

example : parseSocketAddrChars "[::ffff:1.2.3.4]:80".toList =
    some { ip := .v6 0 0 0 0 0 65535 258 772, port := 80, scopeId := 0 } := by decide

example : parseSocketAddrChars "256.0.0.1:80".toList = none := by decide

example : parseSocketAddrChars "01.2.3.4:80".toList = none := by decide

example : parseSocketAddrChars "[1:2:3:4:5:6:7:8]:80".toList =
    some { ip := .v6 1 2 3 4 5 6 7 8, port := 80, scopeId := 0 } := by decide

/-! ## parse_addr (src/main.rs)

bind.matches(":").count() is the number of colon characters;
bind.contains("]:") is a substring test.  The source fixes the default
port to the constant DEFAULT_PORT = 11313; the embedding takes the
appended port as a parameter, with the constant given below, so that
the claim that an embedded port makes the default irrelevant is
expressible. -/

def DEFAULT_PORT : Nat := 11313

def colonCount (s : String) : Nat := s.toList.count ':'

def leadsWith : List Char → List Char → Bool
  | [], _ => true
  | _ :: _, [] => false
  | p :: ps, c :: cs => p == c && leadsWith ps cs

def occursSeq (pat : List Char) : List Char → Bool
  | [] => leadsWith pat []
  | c :: cs => leadsWith pat (c :: cs) || occursSeq pat cs

def hasBracketColon (s : String) : Bool := occursSeq [']', ':'] s.toList

/-- fn parse_addr(bind: &String) -> Result<SocketAddr>. -/
def parse_addr (bind : String) (defaultPort : Nat) : Except String SockAddr :=
  if colonCount bind = 1 ∨ hasBracketColon bind = true then
    match parseSocketAddrChars bind.toList with
    | some a => .ok a
    | none => .error ("failed to parse bind IP address including port: " ++ bind)
  else
    match parseSocketAddrChars (bind.toList ++ ':' :: decChars defaultPort) with
    | some a => .ok a
    | none =>
      match parseSocketAddrChars ('[' :: bind.toList ++ ']' :: ':' :: decChars defaultPort) with
      | some a => .ok a
      | none => .error ("failed to parse bind IP address: " ++ bind)

deriving instance DecidableEq for Except

example : parse_addr "1.2.3.4:80" 11313 = .ok { ip := .v4 1 2 3 4, port := 80, scopeId := 0 } := by decide
example : parse_addr "127.0.0.1" 11313 = .ok { ip := .v4 127 0 0 1, port := 11313, scopeId := 0 } := by decide
example : parse_addr "::1" 11313 = .ok { ip := .v6 0 0 0 0 0 0 0 1, port := 11313, scopeId := 0 } := by decide
example : (parse_addr "1.2.3.4:" 11313).isOk = false := by decide
example : (parse_addr "not-an-address" 11313).isOk = false := by decide
example : (parse_addr "1:2:3" 11313).isOk = false := by decide
example : parse_addr "[::1]:443" 11313 = .ok { ip := .v6 0 0 0 0 0 0 0 1, port := 443, scopeId := 0 } := by decide

/-! ## load_private_key (src/main.rs)

The three rustls_pemfile decodings of the key file are inputs (lists of
the keys each decoding found; a key is opaque, modelled as Nat).  The
source matches on the tuple (ec.first(), pkcs8.first(), rsa.first(),
total) with total the sum of the three lengths; lpk_match is exactly
that four-way match. -/

def lpk_match (filename : String) (o1 o2 o3 : Option Nat) (total : Nat) : Except String Nat :=
  match o1, o2, o3, total with
  | some k, _, _, 1 => .ok k
  | _, some k, _, 1 => .ok k
  | _, _, some k, 1 => .ok k
  | _, _, _, 0 => .error ("no private keys found in file " ++ filename)
  | _, _, _, _ => .error ("expected a single private key in file " ++ filename)

def load_private_key (filename : String) (ecKeys pkcs8Keys rsaKeys : List Nat) : Except String Nat :=
  lpk_match filename ecKeys.head? pkcs8Keys.head? rsaKeys.head?
    (ecKeys.length + pkcs8Keys.length + rsaKeys.length)

theorem lpk_match_zero (f : String) (o1 o2 o3 : Option Nat) :
    lpk_match f o1 o2 o3 0 = .error ("no private keys found in file " ++ f) := by
  cases o1 <;> cases o2 <;> cases o3 <;> rfl

theorem lpk_match_many (f : String) (o1 o2 o3 : Option Nat) (t : Nat) :
    lpk_match f o1 o2 o3 (t + 2) = .error ("expected a single private key in file " ++ f) := by
  cases o1 <;> cases o2 <;> cases o3 <;> rfl

/-! ## The per-connection service (src/main.rs, run_server)

make_service_fn runs once per accepted TLS connection: it increments the
shared request counter, then captures the textual form of the peer IP
(or the literal string "error" when socket.io() yields None); the inner
service_fn answers every request on that connection with that captured
string, ignoring method and path. -/

structure HttpRequest where
  method : String
  path : String
deriving DecidableEq, Repr

structure TlsConn where
  peer : Option SockAddr
  requests : List HttpRequest
deriving DecidableEq, Repr

/-- The remote_addr string captured by the make_service_fn closure. -/
def remote_addr_string (peer : Option SockAddr) : String :=
  match peer with
  | none => "error"
  | some a => String.mk (ipChars a.ip)

/-- Body of the response produced by the inner service_fn for one request. -/
def service_response_body (peer : Option SockAddr) (_req : HttpRequest) : String :=
  remote_addr_string peer

/-- The fetch_add(1) performed by make_service_fn when a connection's
service is created (once per connection, before any request is served). -/
def make_service_step (counter : Nat) (_conn : TlsConn) : Nat := counter + 1

/-- Counter value after a sequence of accepted connections. -/
def counter_after (conns : List TlsConn) : Nat := conns.foldl make_service_step 0

/-- Number of requests dispatched across those connections. -/
def dispatched_requests (conns : List TlsConn) : Nat :=
  (conns.map (fun c => c.requests.length)).sum

/-! ## The telemetry loop (src/main.rs, start_counter)

Monotonic time is Nat nanoseconds since start_time; Duration::as_secs
truncates to whole seconds.  One loop iteration reads the counter,
computes the interval difference of the counter and of elapsed time,
divides, logs, and then stores the interval difference of elapsed time
into prev_elapsed_time and the total into prev_total_requests. -/

def NANOS_PER_SEC : Nat := 1000000000

structure CounterState where
  prevElapsedNanos : Nat
  prevTotal : Nat
deriving DecidableEq, Repr

/-- One reported telemetry sample: the numerator and denominator of the
interval rate division and of the cumulative rate division, plus the raw
total (the three values of the log line). -/
structure TelemetrySample where
  intervalCount : Nat
  intervalSecs : Nat
  totalCount : Nat
  totalSecs : Nat
deriving DecidableEq, Repr

/-- One iteration of the start_counter loop body after a timer tick, at
elapsed time elapsedNanos with counter value total. -/
def counter_tick (st : CounterState) (elapsedNanos total : Nat) :
    TelemetrySample × CounterState :=
  let diff := total - st.prevTotal
  let intervalNanos := elapsedNanos - st.prevElapsedNanos
  ({ intervalCount := diff
   , intervalSecs := intervalNanos / NANOS_PER_SEC
   , totalCount := total
   , totalSecs := elapsedNanos / NANOS_PER_SEC }
  , { prevElapsedNanos := intervalNanos, prevTotal := total })

/-- The f64 quotient reported as requests per second: finite exactly when
the denominator is nonzero (a zero denominator gives inf or NaN). -/
def rps_value (s : TelemetrySample) : Option ℚ :=
  if s.intervalSecs = 0 then none else some ((s.intervalCount : ℚ) / (s.intervalSecs : ℚ))

inductive UnixSignal where
  | sigint
  | sigterm
deriving DecidableEq, Repr

inductive ExitType where
  | termination
  | interrupt
deriving DecidableEq, Repr

/-- fn shutdown_signal_helper: select over the SIGTERM and SIGINT streams. -/
def shutdown_signal_helper : UnixSignal → ExitType
  | .sigterm => .termination
  | .sigint => .interrupt

/-- fn server_shutdown_signal: awaits the helper and discards which of the
two signals fired. -/
def server_shutdown_signal (s : UnixSignal) : Unit :=
  let _ := shutdown_signal_helper s
  ()

/-- fn server_shutdown_counter. -/
def server_shutdown_counter (s : UnixSignal) : ExitType :=
  shutdown_signal_helper s

def counter_signal_log : ExitType → String
  | .interrupt => "Received interrupt signal. Exiting..."
  | .termination => "Received termination signal. Exiting..."

/-- What the select in the start_counter loop observes: either the timer
tick (with the monotonic elapsed time and the counter value it will read)
or a termination signal. -/
inductive CounterEvent where
  | tick (elapsedNanos total : Nat)
  | signal (s : UnixSignal)
deriving DecidableEq, Repr

structure CounterOutcome where
  samples : List TelemetrySample
  exitLog : Option String
  stopped : Bool
deriving DecidableEq, Repr

/-- The start_counter loop over its observed events: each tick produces a
sample and updates the state; the first signal logs one line and breaks,
ignoring everything after it.  (The tick absorbed before the loop, which
reads nothing, is not an event.) -/
def start_counter : CounterState → List CounterEvent → CounterOutcome
  | _, [] => { samples := [], exitLog := none, stopped := false }
  | st, .tick t c :: rest =>
    let p := counter_tick st t c
    let o := start_counter p.2 rest
    { samples := p.1 :: o.samples, exitLog := o.exitLog, stopped := o.stopped }
  | _, .signal sg :: _ =>
    { samples := []
    , exitLog := some (counter_signal_log (server_shutdown_counter sg))
    , stopped := true }

/-- The samples reported for a run in which the timer ticks at the given
elapsed times with the given counter values and no signal arrives. -/
def counter_run (ticks : List (Nat × Nat)) : List TelemetrySample :=
  (start_counter { prevElapsedNanos := 0, prevTotal := 0 }
    (ticks.map (fun tc => CounterEvent.tick tc.1 tc.2))).samples

/-- Ticks strictly later than the base time by at least one full second,
consecutively (normal timer operation for a positive log interval). -/
def gaps_ge (base : Nat) : List (Nat × Nat) → Prop
  | [] => True
  | (t, _) :: rest => base + NANOS_PER_SEC ≤ t ∧ gaps_ge t rest

example : counter_run [(60 * NANOS_PER_SEC, 100), (120 * NANOS_PER_SEC, 250), (180 * NANOS_PER_SEC, 400)] =
    [{ intervalCount := 100, intervalSecs := 60, totalCount := 100, totalSecs := 60 },
     { intervalCount := 150, intervalSecs := 60, totalCount := 250, totalSecs := 120 },
     { intervalCount := 150, intervalSecs := 120, totalCount := 400, totalSecs := 180 }] := by decide

/-! ## run_server: startup, spawning and shutdown (src/main.rs)

run_server loads the certificates, loads the key, then in one loop
parses and binds every configured address; only after that loop does it
spawn one server task per bound address, each wrapped in
with_graceful_shutdown(server_shutdown_signal()).  Any error before the
spawn loop propagates out of run_server, and main logs one Fatal line
and exits with status 1; a clean return exits with status 0. -/

structure StartupEnv where
  certsResult : Except String (List Nat)
  keyResult : Except String Nat
  binds : List String
  bindOutcome : SockAddr → Except String Unit

/-- The for-loop in run_server that parses and binds each address in
order, collecting the acceptors (represented by their socket address). -/
def bind_loop (outcome : SockAddr → Except String Unit) : List String → Except String (List SockAddr)
  | [] => .ok []
  | b :: rest =>
    match parse_addr b DEFAULT_PORT with
    | .error e => .error e
    | .ok addr =>
      match outcome addr with
      | .error e => .error e
      | .ok _ =>
        match bind_loop outcome rest with
        | .error e => .error e
        | .ok addrs => .ok (addr :: addrs)

/-- The startup phase of run_server, up to (but not including) the spawn
loop. -/
def run_server_startup (env : StartupEnv) : Except String (List SockAddr) :=
  match env.certsResult with
  | .error e => .error e
  | .ok _ =>
    match env.keyResult with
    | .error e => .error e
    | .ok _ => bind_loop env.bindOutcome env.binds

/-- The listeners spawned by run_server: all bound addresses on success,
none when startup failed (the spawn loop is only reached after every
address is bound). -/
def spawned_servers (env : StartupEnv) : List SockAddr :=
  match run_server_startup env with
  | .ok addrs => addrs
  | .error _ => []

/-- fn main: error from run_server means one Fatal log line and exit(1),
otherwise the process terminates normally with status 0. -/
def main_exit_code (r : Except String Unit) : Nat :=
  match r with
  | .error _ => 1
  | .ok _ => 0

def startup_exit_code (env : StartupEnv) : Nat :=
  main_exit_code ((run_server_startup env).map (fun _ => ()))

def fatal_logs (env : StartupEnv) : List String :=
  match run_server_startup env with
  | .error e => ["Fatal: " ++ e]
  | .ok _ => []

/-- Startup failure of the step for one configured bind string: its
parse_addr fails, or the bind itself does. -/
def bind_step_fails (env : StartupEnv) (b : String) : Prop :=
  match parse_addr b DEFAULT_PORT with
  | .error _ => True
  | .ok addr => ∃ e, env.bindOutcome addr = .error e

/-! ### Shutdown

Each spawned server is wrapped in with_graceful_shutdown: once the
signal future server_shutdown_signal completes, the listener stops
accepting, drains, and its join handle resolves Ok.  run_server then
awaits every handle and returns Ok. -/

/-- A listener task after the shutdown signal has been delivered (some s)
or not (none): whether it has stopped, and its join-handle result. -/
def listener_run (_conns : List TlsConn) (sig : Option UnixSignal) : Bool × Except String Unit :=
  match sig with
  | some s =>
    let _ := server_shutdown_signal s
    (true, .ok ())
  | none => (false, .ok ())

/-- The sequential awaits at the end of run_server. -/
def join_all (rs : List (Except String Unit)) : Except String Unit :=
  rs.foldl (fun acc r => match acc with | .error e => .error e | .ok _ => r) (.ok ())

structure ProcessOutcome where
  listenersStopped : List Bool
  telemetryStopped : Bool
  exitCode : Nat
deriving DecidableEq, Repr

/-- The whole process once a termination signal sg is delivered while n
listeners (with their accepted connections) and the telemetry loop are
running: every listener observes its completed shutdown future, the
telemetry select takes the signal arm, run_server awaits all handles and
main exits. -/
def process_after_signal (listenerConns : List (List TlsConn)) (ticks : List (Nat × Nat))
    (sg : UnixSignal) : ProcessOutcome :=
  let listeners := listenerConns.map (fun cs => listener_run cs (some sg))
  let telem := start_counter { prevElapsedNanos := 0, prevTotal := 0 }
    ((ticks.map (fun tc => CounterEvent.tick tc.1 tc.2)) ++ [CounterEvent.signal sg])
  { listenersStopped := listeners.map Prod.fst
  , telemetryStopped := telem.stopped
  , exitCode := main_exit_code (join_all (listeners.map Prod.snd)) }

/-! ## Supporting lemmas -/

theorem start_counter_tick_count (ticks : List (Nat × Nat)) : ∀ st : CounterState,
    (start_counter st (ticks.map (fun tc => CounterEvent.tick tc.1 tc.2))).samples.length
      = ticks.length := by
  induction ticks with
  | nil => intro st; rfl
  | cons t rest ih =>
    intro st
    simp only [List.map_cons, start_counter, List.length_cons]
    rw [ih]

theorem counter_run_den_pos_aux (ticks : List (Nat × Nat)) :
    ∀ (st : CounterState) (base : Nat), st.prevElapsedNanos ≤ base → gaps_ge base ticks →
      ∀ s ∈ (start_counter st (ticks.map (fun tc => CounterEvent.tick tc.1 tc.2))).samples,
        1 ≤ s.intervalSecs := by
  induction ticks with
  | nil =>
    intro st base _ _ s hs
    simp [start_counter] at hs
  | cons t rest ih =>
    intro st base hst hg s hs
    obtain ⟨h1, h2⟩ := hg
    simp only [List.map_cons, start_counter] at hs
    rcases List.mem_cons.mp hs with rfl | hs2
    · show 1 ≤ (counter_tick st t.1 t.2).1.intervalSecs
      simp only [counter_tick]
      have hle : NANOS_PER_SEC ≤ t.1 - st.prevElapsedNanos := by
        have : 0 < NANOS_PER_SEC := by norm_num [NANOS_PER_SEC]
        omega
      calc 1 = NANOS_PER_SEC / NANOS_PER_SEC := by norm_num [NANOS_PER_SEC]
        _ ≤ (t.1 - st.prevElapsedNanos) / NANOS_PER_SEC := Nat.div_le_div_right hle
    · refine ih (counter_tick st t.1 t.2).2 t.1 ?_ h2 s hs2
      simp only [counter_tick]
      omega

theorem join_all_ok (rs : List (Except String Unit)) :
    (∀ r ∈ rs, r = .ok ()) → join_all rs = .ok () := by
  induction rs with
  | nil => intro _; rfl
  | cons r rest ih =>
    intro h
    have hr := h r (by simp)
    subst hr
    exact ih (fun x hx => h x (by simp [hx]))

theorem start_counter_stops_on_signal (evs : List CounterEvent) : ∀ (st : CounterState) (sg : UnixSignal),
    (start_counter st (evs ++ [CounterEvent.signal sg])).stopped = true := by
  induction evs with
  | nil => intro st sg; rfl
  | cons e rest ih =>
    intro st sg
    cases e with
    | tick t c =>
      simp only [List.cons_append, start_counter]
      exact ih _ sg
    | signal s2 => rfl

theorem bind_loop_fails (env : StartupEnv) : ∀ binds : List String,
    (∃ b ∈ binds, bind_step_fails env b) →
      ∃ e, bind_loop env.bindOutcome binds = .error e := by
  intro binds
  induction binds with
  | nil =>
    rintro ⟨b, hb, _⟩
    simp at hb
  | cons b0 rest ih =>
    rintro ⟨b, hb, hfail⟩
    rcases List.mem_cons.mp hb with rfl | hbrest
    · cases hpa : parse_addr b 11313 with
      | error e => exact ⟨e, by simp [bind_loop, DEFAULT_PORT, hpa]⟩
      | ok addr =>
        simp only [bind_step_fails, DEFAULT_PORT, hpa] at hfail
        obtain ⟨e, he⟩ := hfail
        exact ⟨e, by simp [bind_loop, DEFAULT_PORT, hpa, he]⟩
    · cases hpa : parse_addr b0 11313 with
      | error e => exact ⟨e, by simp [bind_loop, DEFAULT_PORT, hpa]⟩
      | ok addr =>
        cases hbo : env.bindOutcome addr with
        | error e => exact ⟨e, by simp [bind_loop, DEFAULT_PORT, hpa, hbo]⟩
        | ok _ =>
          obtain ⟨e, he⟩ := ih ⟨b, hbrest, hfail⟩
          exact ⟨e, by simp [bind_loop, DEFAULT_PORT, hpa, hbo, he]⟩

/-! ## Claims -/

/-- C1: for every accepted connection whose peer address is available, every
request on that connection (any method, any path) is answered with a body
that is exactly the Display form of the peer IP — a string that depends only
on the IP (no port) and contains no whitespace; in particular a peer at
203.0.113.7 gets the body "203.0.113.7". -/
theorem c1_response_body_is_peer_ip (ip : IpAddr) (port sid : Nat) (req : HttpRequest) :
    service_response_body (some { ip := ip, port := port, scopeId := sid }) req
      = String.mk (ipChars ip)
    ∧ charsOk (ipChars ip) = true
    ∧ service_response_body (some { ip := .v4 203 0 113 7, port := port, scopeId := sid }) req
      = "203.0.113.7" := by
  refine ⟨rfl, ipChars_ok ip, ?_⟩
  rfl

/-- C2: evaluation at the failing input for the claim that the counter is
incremented once per fully dispatched request.  The fetch_add sits in the
make_service_fn closure, which hyper runs once per accepted connection, so a
single connection carrying two requests leaves the counter at 1 although two
requests were dispatched. -/
theorem c2_counter_counts_connections_not_requests :
    counter_after [{ peer := some { ip := .v4 203 0 113 7, port := 40000, scopeId := 0 }
                   , requests := [{ method := "GET", path := "/" }, { method := "GET", path := "/two" }] }] = 1
    ∧ dispatched_requests [{ peer := some { ip := .v4 203 0 113 7, port := 40000, scopeId := 0 }
                           , requests := [{ method := "GET", path := "/" }, { method := "GET", path := "/two" }] }] = 2
    ∧ (1 : Nat) ≠ 2 := by
  refine ⟨rfl, rfl, by decide⟩

/-- C3: evaluation at the failing input for the interval-rate formula.  With
ticks at 60 s, 120 s, 180 s and counter values 100, 250, 400, the third
reported sample divides by 120 s because prev_elapsed_time was assigned the
previous interval difference instead of the previous cumulative elapsed
time; the formula of the claim requires the denominator 180 - 120 = 60 s. -/
theorem c3_third_tick_interval_denominator :
    counter_run [(60 * NANOS_PER_SEC, 100), (120 * NANOS_PER_SEC, 250), (180 * NANOS_PER_SEC, 400)] =
      [{ intervalCount := 100, intervalSecs := 60, totalCount := 100, totalSecs := 60 },
       { intervalCount := 150, intervalSecs := 60, totalCount := 250, totalSecs := 120 },
       { intervalCount := 150, intervalSecs := 120, totalCount := 400, totalSecs := 180 }]
    ∧ ({ intervalCount := 150, intervalSecs := 120, totalCount := 400, totalSecs := 180 } : TelemetrySample).intervalSecs
      ≠ 180 - 120 := by
  refine ⟨by decide, by decide⟩

/-- C4 counterexample: the loop performs the rate division unconditionally.
When a tick arrives within the same whole second as the previous one (as
the bursting timer produces after a stall), a sample with a zero-second
interval denominator is still reported — it is not skipped, and the f64
quotient is non-finite rather than a degenerate zero value. -/
theorem c4_zero_interval_division_reported :
    (counter_run [(60 * NANOS_PER_SEC, 100), (60 * NANOS_PER_SEC + NANOS_PER_SEC / 2, 150)]).length = 2
    ∧ (counter_run [(60 * NANOS_PER_SEC, 100), (60 * NANOS_PER_SEC + NANOS_PER_SEC / 2, 150)]).get? 1
        = some { intervalCount := 50, intervalSecs := 0, totalCount := 150, totalSecs := 60 }
    ∧ rps_value { intervalCount := 50, intervalSecs := 0, totalCount := 150, totalSecs := 60 } = none := by
  refine ⟨by decide, by decide, ?_⟩
  simp [rps_value]

/-- C4 amended: the telemetry loop reports one sample per tick and has no
zero-denominator guard; whenever consecutive ticks are at least one full
second apart (as holds for any positive log interval under normal timer
operation) every reported interval denominator is positive and the rate is
finite. -/
theorem c4_no_guard_positive_gap_safe (ticks : List (Nat × Nat)) (h : gaps_ge 0 ticks) :
    (counter_run ticks).length = ticks.length
    ∧ ∀ s ∈ counter_run ticks, 1 ≤ s.intervalSecs ∧ (rps_value s).isSome = true := by
  refine ⟨start_counter_tick_count ticks _, ?_⟩
  intro s hs
  have hden := counter_run_den_pos_aux ticks { prevElapsedNanos := 0, prevTotal := 0 } 0 (by simp) h s hs
  refine ⟨hden, ?_⟩
  simp only [rps_value]
  rw [if_neg (by omega)]
  rfl

theorem c4_no_guard_positive_gap_safe_witness :
    (counter_run [(NANOS_PER_SEC, 5)]).length = 1
    ∧ 1 ≤ ({ intervalCount := 5, intervalSecs := 1, totalCount := 5, totalSecs := 1 } : TelemetrySample).intervalSecs := by
  have h := c4_no_guard_positive_gap_safe [(NANOS_PER_SEC, 5)]
    (by exact ⟨by norm_num [NANOS_PER_SEC], trivial⟩)
  refine ⟨h.1, ?_⟩
  exact (h.2 { intervalCount := 5, intervalSecs := 1, totalCount := 5, totalSecs := 1 } (by decide)).1

/-- C5: loading the private key succeeds exactly when the EC, PKCS8 and RSA
decodings of the key file together contain exactly one key; zero keys gives
the no-key error, two or more (in any combination, duplicates included)
gives the ambiguity error, and a unique key is returned no matter which
decoding produced it. -/
theorem c5_exactly_one_key (f : String) (ec p8 rsa : List Nat) :
    ((load_private_key f ec p8 rsa).isOk = true ↔ ec.length + p8.length + rsa.length = 1)
    ∧ (ec.length + p8.length + rsa.length = 0 →
        load_private_key f ec p8 rsa = .error ("no private keys found in file " ++ f))
    ∧ (2 ≤ ec.length + p8.length + rsa.length →
        load_private_key f ec p8 rsa = .error ("expected a single private key in file " ++ f))
    ∧ (∀ k, ec ++ p8 ++ rsa = [k] → load_private_key f ec p8 rsa = .ok k) := by
  have herr0 : ec.length + p8.length + rsa.length = 0 →
      load_private_key f ec p8 rsa = .error ("no private keys found in file " ++ f) := by
    intro h0
    have he : ec = [] := List.length_eq_zero.mp (by omega)
    have hp : p8 = [] := List.length_eq_zero.mp (by omega)
    have hr : rsa = [] := List.length_eq_zero.mp (by omega)
    subst he hp hr
    rfl
  have herr2 : 2 ≤ ec.length + p8.length + rsa.length →
      load_private_key f ec p8 rsa = .error ("expected a single private key in file " ++ f) := by
    intro h2
    obtain ⟨t, ht⟩ : ∃ t, ec.length + p8.length + rsa.length = t + 2 :=
      ⟨ec.length + p8.length + rsa.length - 2, by omega⟩
    show lpk_match f ec.head? p8.head? rsa.head? (ec.length + p8.length + rsa.length) = _
    rw [ht]
    exact lpk_match_many f _ _ _ t
  have hone : ∀ k : Nat, ec ++ p8 ++ rsa = [k] → load_private_key f ec p8 rsa = .ok k := by
    intro k hk
    rcases ec with _ | ⟨a, ec2⟩
    · rcases p8 with _ | ⟨b, p82⟩
      · rcases rsa with _ | ⟨c, rsa2⟩
        · simp at hk
        · simp only [List.nil_append, List.cons.injEq] at hk
          obtain ⟨rfl, rfl⟩ := hk
          rfl
      · simp only [List.nil_append, List.cons_append, List.cons.injEq, List.append_eq_nil] at hk
        obtain ⟨rfl, rfl, rfl⟩ := hk
        rfl
    · simp only [List.cons_append, List.cons.injEq, List.append_eq_nil] at hk
      obtain ⟨rfl, ⟨rfl, rfl⟩, rfl⟩ := hk
      rfl
  refine ⟨?_, herr0, herr2, hone⟩
  constructor
  · intro hok
    by_contra hne
    rcases Nat.lt_or_ge (ec.length + p8.length + rsa.length) 1 with hlt | hge
    · rw [herr0 (by omega)] at hok
      simp [Except.isOk, Except.toBool] at hok
    · rw [herr2 (by omega)] at hok
      simp [Except.isOk, Except.toBool] at hok
  · intro h1
    obtain ⟨k, hk⟩ : ∃ k, ec ++ p8 ++ rsa = [k] := by
      apply List.length_eq_one.mp
      simp [List.length_append]
      omega
    rw [hone k hk]
    rfl

theorem c5_exactly_one_key_witness :
    load_private_key "key.pem" [5] [] [] = .ok 5 :=
  (c5_exactly_one_key "key.pem" [5] [] []).2.2.2 5 rfl

/-- C6: a bind string containing exactly one colon or a bracket-colon is
parsed as a complete address-with-port exactly as given — the default port
plays no role — and every other bind string is resolved by appending the
default port, first in the IPv4 form and then in the bracketed IPv6 form,
the first successful parse winning. -/
theorem c6_port_delimiter_dispatch (bind : String) (p q : Nat) :
    ((colonCount bind = 1 ∨ hasBracketColon bind = true) →
        parse_addr bind p = parse_addr bind q
      ∧ parse_addr bind p =
          (match parseSocketAddrChars bind.toList with
           | some a => Except.ok a
           | none => Except.error ("failed to parse bind IP address including port: " ++ bind)))
    ∧ (¬ (colonCount bind = 1 ∨ hasBracketColon bind = true) →
        parse_addr bind p =
          (match parseSocketAddrChars (bind.toList ++ ':' :: decChars p) with
           | some a => Except.ok a
           | none =>
             match parseSocketAddrChars ('[' :: bind.toList ++ ']' :: ':' :: decChars p) with
             | some a => Except.ok a
             | none => Except.error ("failed to parse bind IP address: " ++ bind))) := by
  constructor
  · intro h
    exact ⟨by simp only [parse_addr, if_pos h], by simp only [parse_addr, if_pos h]⟩
  · intro h
    simp only [parse_addr, if_neg h]

theorem c6_port_delimiter_dispatch_witness :
    (parse_addr "1.2.3.4:80" 1 = parse_addr "1.2.3.4:80" 2
      ∧ parse_addr "1.2.3.4:80" 1 = .ok { ip := .v4 1 2 3 4, port := 80, scopeId := 0 })
    ∧ parse_addr "10.0.0.1" 7 = .ok { ip := .v4 10 0 0 1, port := 7, scopeId := 0 } := by
  have h1 := (c6_port_delimiter_dispatch "1.2.3.4:80" 1 2).1 (by left; decide)
  have h2 := (c6_port_delimiter_dispatch "10.0.0.1" 7 7).2 (by decide)
  refine ⟨⟨h1.1, ?_⟩, ?_⟩
  · rw [h1.2]; decide
  · rw [h2]; decide

def containsChar (ch : Char) (s : String) : Bool := s.toList.contains ch

/-- C7 counterexample: "::1" has more than one colon and no brackets, yet
address resolution accepts it (the bracketed form with the appended default
port parses as IPv6 loopback), refuting the claim that every such string is
rejected. -/
theorem c7_multi_colon_no_brackets_accepted :
    1 < colonCount "::1"
    ∧ containsChar '[' "::1" = false
    ∧ containsChar ']' "::1" = false
    ∧ parse_addr "::1" DEFAULT_PORT
        = .ok { ip := .v6 0 0 0 0 0 0 0 1, port := 11313, scopeId := 0 } := by
  refine ⟨by decide, by decide, by decide, by decide⟩

/-- C7 amended: malformed bind strings such as "1.2.3.4:" and
"not-an-address" always fail with a parse error and never silently get the
default port; a string with more than one colon and no brackets is rejected
when it is not a valid bare IPv6 address (such as "1:2:3"), but accepted
with the default port appended when it is one (such as "::1"). -/
theorem c7_malformed_bind_rejected :
    parse_addr "1.2.3.4:" DEFAULT_PORT
      = .error ("failed to parse bind IP address including port: " ++ "1.2.3.4:")
    ∧ parse_addr "not-an-address" DEFAULT_PORT
      = .error ("failed to parse bind IP address: " ++ "not-an-address")
    ∧ parse_addr "1:2:3" DEFAULT_PORT
      = .error ("failed to parse bind IP address: " ++ "1:2:3")
    ∧ parse_addr "::1" DEFAULT_PORT
      = .ok { ip := .v6 0 0 0 0 0 0 0 1, port := 11313, scopeId := 0 } := by
  refine ⟨by decide, by decide, by decide, by decide⟩

/-- C8: any fatal startup error — a certificate or key load failure, or a
parse or bind failure for any configured address — makes startup fail, so
the process exits with status 1 after exactly one Fatal log line and no
server task is ever spawned (the spawn loop runs only after every address
has been bound). -/
theorem c8_fatal_startup (env : StartupEnv)
    (h : (∃ e, env.certsResult = .error e) ∨ (∃ e, env.keyResult = .error e)
       ∨ (∃ b ∈ env.binds, bind_step_fails env b)) :
    startup_exit_code env = 1 ∧ spawned_servers env = [] ∧ (fatal_logs env).length = 1 := by
  have herr : ∃ e, run_server_startup env = .error e := by
    rcases h with ⟨e, he⟩ | ⟨e, he⟩ | hb
    · exact ⟨e, by simp [run_server_startup, he]⟩
    · cases hc : env.certsResult with
      | error e2 => exact ⟨e2, by simp [run_server_startup, hc]⟩
      | ok _ => exact ⟨e, by simp [run_server_startup, hc, he]⟩
    · cases hc : env.certsResult with
      | error e2 => exact ⟨e2, by simp [run_server_startup, hc]⟩
      | ok _ =>
        cases hk : env.keyResult with
        | error e2 => exact ⟨e2, by simp [run_server_startup, hc, hk]⟩
        | ok _ =>
          obtain ⟨e, he⟩ := bind_loop_fails env env.binds hb
          exact ⟨e, by simp [run_server_startup, hc, hk, he]⟩
  obtain ⟨e, he⟩ := herr
  refine ⟨?_, ?_, ?_⟩ <;>
    simp [startup_exit_code, spawned_servers, fatal_logs, main_exit_code, Except.map, he]

theorem c8_fatal_startup_witness :
    startup_exit_code { certsResult := .error "failed to load certificate", keyResult := .ok 0
                      , binds := [], bindOutcome := fun _ => .ok () } = 1
    ∧ spawned_servers { certsResult := .error "failed to load certificate", keyResult := .ok 0
                      , binds := [], bindOutcome := fun _ => .ok () } = []
    ∧ (fatal_logs { certsResult := .error "failed to load certificate", keyResult := .ok 0
                  , binds := [], bindOutcome := fun _ => .ok () }).length = 1 :=
  c8_fatal_startup _ (Or.inl ⟨"failed to load certificate", rfl⟩)

/-- C9: once either termination signal is delivered, every listener reaches
the stopped state with an Ok join result, the telemetry loop takes its
signal select-arm and stops, the process exits with status 0, and the two
signals produce identical outcomes (the first signal wins: everything after
it is ignored by the telemetry select). -/
theorem c9_signal_shutdown (lc : List (List TlsConn)) (ticks : List (Nat × Nat)) (sg : UnixSignal) :
    (∀ b ∈ (process_after_signal lc ticks sg).listenersStopped, b = true)
    ∧ (process_after_signal lc ticks sg).telemetryStopped = true
    ∧ (process_after_signal lc ticks sg).exitCode = 0
    ∧ process_after_signal lc ticks sg = process_after_signal lc ticks .sigint
    ∧ (∀ (rest : List CounterEvent) (st : CounterState),
        start_counter st (CounterEvent.signal sg :: rest) = start_counter st [CounterEvent.signal sg]) := by
  refine ⟨?_, ?_, ?_, ?_, ?_⟩
  · intro b hb
    simp only [process_after_signal, List.map_map, List.mem_map] at hb
    obtain ⟨cs, _, rfl⟩ := hb
    rfl
  · exact start_counter_stops_on_signal _ _ sg
  · show main_exit_code (join_all _) = 0
    rw [join_all_ok]
    · rfl
    · intro r hr
      simp only [List.map_map, List.mem_map] at hr
      obtain ⟨cs, _, rfl⟩ := hr
      rfl
  · cases sg with
    | sigint => rfl
    | sigterm =>
      simp only [process_after_signal, ProcessOutcome.mk.injEq]
      refine ⟨rfl, ?_, rfl⟩
      rw [start_counter_stops_on_signal, start_counter_stops_on_signal]
  · intro rest st
    rfl

theorem c9_signal_shutdown_witness :
    (process_after_signal [[]] [] UnixSignal.sigterm).telemetryStopped = true
    ∧ (process_after_signal [[]] [] UnixSignal.sigterm).exitCode = 0 := by
  have h := c9_signal_shutdown [[]] [] UnixSignal.sigterm
  exact ⟨h.2.1, h.2.2.1⟩

/-- C10: a connection whose peer address is unavailable is still served —
every request on it is answered with the literal body "error" — and its
acceptance still increments the request counter by one. -/
theorem c10_none_peer_connection (conns : List TlsConn) (c : TlsConn) (h : c.peer = none) :
    (∀ req, service_response_body c.peer req = "error")
    ∧ counter_after (conns ++ [c]) = counter_after conns + 1 := by
  constructor
  · intro req
    rw [h]
    rfl
  · simp [counter_after, List.foldl_append, make_service_step]

theorem c10_none_peer_connection_witness :
    service_response_body none { method := "GET", path := "/" } = "error"
    ∧ counter_after [{ peer := none, requests := [] }] = 1 := by
  have h := c10_none_peer_connection [] { peer := none, requests := [] } rfl
  exact ⟨h.1 { method := "GET", path := "/" }, h.2⟩
